import Mathlib

/-!
Shallow embedding of the authentication and authorization middleware of a
task-manager backend: password strength policy, JWT-style token codec,
credential extraction, mandatory and optional authentication gates,
role-based and ownership-based authorization decisions, and the boundary
error renderer's status-code mapping.

Times are modelled as natural numbers of seconds.  Middleware that calls
`next()` with an error is modelled as returning `Except.error`; calling
`next()` with no error (the request proceeds to the handler) is
`Except.ok`.  The repository's error classes (AuthenticationError 401,
AuthorizationError 403, NotFoundError 404, and the untyped built-in
`Error`) are modelled by the `AppErr` inductive.
-/

structure JwtConfig where
  secret : String
  expiresInSecs : Nat
  refreshExpiresInSecs : Nat
  issuer : String
  audience : String
deriving DecidableEq, Repr

/-- Default JWT configuration of the source (`JWT_CONFIG`), with the
duration strings `24h` and `7d` rendered in seconds. -/
def JWT_CONFIG : JwtConfig :=
  { secret := "your-super-secret-jwt-key-change-in-production"
  , expiresInSecs := 86400
  , refreshExpiresInSecs := 604800
  , issuer := "task-manager-api"
  , audience := "task-manager-users" }

structure User where
  id : Nat
  username : String
  email : String
  role : String
deriving DecidableEq, Repr

/-- Claims embedded in a token by `generateToken`. -/
structure TokenClaims where
  userId : Nat
  username : String
  email : String
  role : String
  type : String
  iat : Nat
  iss : String
  aud : String
  exp : Nat
deriving DecidableEq, Repr

/-- A signed token: its claim set together with the key it was signed
with (signature validity is modelled as key equality). -/
structure Token where
  claims : TokenClaims
  signedWith : String
deriving DecidableEq, Repr

/-- Source `generateToken`: builds the payload with the user's fields,
the token type, issuance time, issuer and audience, and signs it; expiry
is issuance time plus the refresh TTL for `refresh` tokens and the
access TTL otherwise. -/
def generateToken (cfg : JwtConfig) (now : Nat) (user : User) (ty : String) : Token :=
  let expiresIn := if ty = "refresh" then cfg.refreshExpiresInSecs else cfg.expiresInSecs
  { claims :=
      { userId := user.id
      , username := user.username
      , email := user.email
      , role := user.role
      , type := ty
      , iat := now
      , iss := cfg.issuer
      , aud := cfg.audience
      , exp := now + expiresIn }
  , signedWith := cfg.secret }

/-- Error names thrown by the jsonwebtoken primitive. -/
inductive JwtError
  | TokenExpiredError
  | JsonWebTokenError
  | OtherJwtError
deriving DecidableEq, Repr

/-- Modelled from the spec: the jsonwebtoken verification primitive is a
library, not repository code.  Per the spec, verification checks the
signature, issuer and audience equality against the codec configuration,
and expiry: claims are returned until `now > expires_at`, after which
verification fails with the expiry error; signature or issuer/audience
mismatch is the malformed-token error. -/
def jwtVerify (cfg : JwtConfig) (now : Nat) (t : Token) : Except JwtError TokenClaims :=
  if t.signedWith ≠ cfg.secret then .error .JsonWebTokenError
  else if t.claims.iss ≠ cfg.issuer then .error .JsonWebTokenError
  else if t.claims.aud ≠ cfg.audience then .error .JsonWebTokenError
  else if t.claims.exp < now then .error .TokenExpiredError
  else .ok t.claims

/-- Repository error taxonomy from `errorHandler.js`, plus the untyped
built-in `Error` used at one place in the ownership middleware. -/
inductive AppErr
  | AuthenticationError (msg : String)
  | AuthorizationError (msg : String)
  | NotFoundError (msg : String)
  | PlainError (msg : String)
deriving DecidableEq, Repr

/-- Source `verifyToken`: verifies via the jwt primitive and rewraps each
failure name as an `AuthenticationError` with a fixed message. -/
def verifyToken (cfg : JwtConfig) (now : Nat) (t : Token) : Except AppErr TokenClaims :=
  match jwtVerify cfg now t with
  | .ok c => .ok c
  | .error .TokenExpiredError => .error (.AuthenticationError "Token has expired")
  | .error .JsonWebTokenError => .error (.AuthenticationError "Invalid token")
  | .error .OtherJwtError => .error (.AuthenticationError "Token verification failed")

/-- Verification of a wire-format token string: the decoding of the wire
format (three base64url segments) is abstracted as a function
`dec : String → Option Token`; an unparseable string is a
JsonWebTokenError, hence the malformed-token message. -/
def verifyTokenStr (cfg : JwtConfig) (dec : String → Option Token) (now : Nat) (s : String) :
    Except AppErr TokenClaims :=
  match dec s with
  | none => .error (.AuthenticationError "Invalid token")
  | some t => verifyToken cfg now t

/-- Request metadata read by `extractToken`: the `authorization` header,
the `x-access-token` header, and the `token` query parameter.  `none`
models an absent field. -/
structure Request where
  authorization : Option String
  xAccessToken : Option String
  queryToken : Option String
deriving DecidableEq, Repr

/-- JavaScript truthiness of an optional string: absent and empty are
falsy. -/
def truthy : Option String → Bool
  | none => false
  | some s => s ≠ ""

/-- JavaScript `String.prototype.startsWith`, on the character list of
the string. -/
def jsStartsWith (s pre : String) : Bool :=
  List.isPrefixOf pre.data s.data

/-- Source `extractToken`: Authorization header with the `Bearer `
prefix first (the text after the prefix, `substring(7)`), then the
`x-access-token` header, then the `token` query parameter, else null. -/
def extractToken (req : Request) : Option String :=
  if truthy req.authorization && jsStartsWith (req.authorization.getD "") "Bearer " then
    some ((req.authorization.getD "").drop 7)
  else if truthy req.xAccessToken then req.xAccessToken
  else if truthy req.queryToken then req.queryToken
  else none

/-- Caller identity attached to the request (`req.user`). -/
structure CallerIdentity where
  id : Nat
  username : String
  email : String
  role : String
deriving DecidableEq, Repr

/-- Projection of verified claims onto the attached identity. -/
def identityOfClaims (c : TokenClaims) : CallerIdentity :=
  { id := c.userId, username := c.username, email := c.email, role := c.role }

/-- Source `authenticateToken` (mandatory gate): a null or empty
extracted token fails with the missing-credential error; verification
failures propagate; a non-`access` token type fails with the
wrong-token-type error; otherwise the identity is attached and the
request proceeds.  `Except.error` short-circuits the request before the
handler. -/
def authenticateToken (cfg : JwtConfig) (dec : String → Option Token) (now : Nat)
    (req : Request) : Except AppErr CallerIdentity :=
  match extractToken req with
  | none => .error (.AuthenticationError "Access token is required")
  | some tok =>
    if tok = "" then .error (.AuthenticationError "Access token is required")
    else
      match verifyTokenStr cfg dec now tok with
      | .error e => .error e
      | .ok decoded =>
        if decoded.type ≠ "access" then .error (.AuthenticationError "Invalid token type")
        else .ok (identityOfClaims decoded)

/-- The try-block of source `optionalAuth`: attaches the identity when a
truthy token is extracted, verifies, and has type `access`; verification
failures escape as errors (to be caught by the surrounding catch). -/
def optionalAuthBody (cfg : JwtConfig) (dec : String → Option Token) (now : Nat)
    (req : Request) : Except AppErr (Option CallerIdentity) :=
  match extractToken req with
  | none => .ok none
  | some tok =>
    if tok = "" then .ok none
    else
      match verifyTokenStr cfg dec now tok with
      | .error e => .error e
      | .ok decoded =>
        .ok (if decoded.type = "access" then some (identityOfClaims decoded) else none)

/-- Source `optionalAuth`: the catch clause swallows every error and the
request proceeds, unauthenticated. -/
def optionalAuth (cfg : JwtConfig) (dec : String → Option Token) (now : Nat)
    (req : Request) : Option CallerIdentity :=
  match optionalAuthBody cfg dec now req with
  | .error _ => none
  | .ok r => r

/-- Source `authorizeRoles`: no identity fails with an
AuthenticationError; a role outside the allowed list fails with an
AuthorizationError; otherwise the request proceeds. -/
def authorizeRoles (roles : List String) (user : Option CallerIdentity) : Except AppErr Unit :=
  match user with
  | none => .error (.AuthenticationError "User not authenticated")
  | some u =>
    if !(roles.contains u.role) then
      .error (.AuthorizationError ("Role " ++ u.role ++ " is not authorized"))
    else .ok ()

/-- A stored resource, reduced to the field the ownership middleware
reads (`userId`, the owner's id). -/
structure Resource where
  userId : Nat
deriving DecidableEq, Repr

/-- Source `authorizeResourceOwnership`: no identity fails with an
AuthenticationError; a failed lookup fails with an untyped
`Error("Resource not found")`; an `admin` role passes unconditionally;
otherwise the resource's owner field must equal the caller's id, else an
AuthorizationError.  The lookup collaborator (`findByPk`) is a
parameter. -/
def authorizeResourceOwnership (lookup : Nat → Option Resource)
    (user : Option CallerIdentity) (resourceId : Nat) : Except AppErr Unit :=
  match user with
  | none => .error (.AuthenticationError "User not authenticated")
  | some u =>
    match lookup resourceId with
    | none => .error (.PlainError "Resource not found")
    | some r =>
      if u.role = "admin" then .ok ()
      else if r.userId ≠ u.id then
        .error (.AuthorizationError "Access denied to this resource")
      else .ok ()

/-- The `statusCode` field carried by each error class in
`errorHandler.js`; an untyped `Error` has none. -/
def statusCode : AppErr → Option Nat
  | .AuthenticationError _ => some 401
  | .AuthorizationError _ => some 403
  | .NotFoundError _ => some 404
  | .PlainError _ => none

/-- Source `globalErrorHandler`, restricted to the status code it
responds with: `err.statusCode || 500`. -/
def globalErrorHandler (e : AppErr) : Nat :=
  (statusCode e).getD 500

/-- Password policy configuration of the source (`PASSWORD_CONFIG`). -/
structure PasswordConfig where
  saltRounds : Nat
  minLength : Nat
  requireUppercase : Bool
  requireLowercase : Bool
  requireNumbers : Bool
  requireSpecialChars : Bool
deriving DecidableEq, Repr

def PASSWORD_CONFIG : PasswordConfig :=
  { saltRounds := 12
  , minLength := 8
  , requireUppercase := true
  , requireLowercase := true
  , requireNumbers := true
  , requireSpecialChars := true }

/-- Regex character class `[A-Z]`. -/
def isUpperAZ (c : Char) : Bool := 'A' ≤ c && c ≤ 'Z'

/-- Regex character class `[a-z]`. -/
def isLowerAZ (c : Char) : Bool := 'a' ≤ c && c ≤ 'z'

/-- Regex character class `\d`. -/
def isDigit09 (c : Char) : Bool := '0' ≤ c && c ≤ '9'

/-- Characters of the special-character regex class in the source. -/
def specialChars : List Char :=
  ['!', '@', '#', '$', '%', '^', '&', '*', '(', ')', ',', '.', '?', '\"', ':',
   '\x7b', '\x7d', '|', '<', '>']

def isSpecialChar (c : Char) : Bool := specialChars.contains c

def minLengthMsg : String := "Password must be at least 8 characters long"

def upperMsg : String := "Password must contain at least one uppercase letter"

def lowerMsg : String := "Password must contain at least one lowercase letter"

def digitMsg : String := "Password must contain at least one number"

def specialMsg : String := "Password must contain at least one special character"

/-- Source `validatePasswordStrength`, returning the `errors` list it
accumulates; each failed rule appends its message, in source order. -/
def validatePasswordStrength (password : String) : List String :=
  (if password.length < PASSWORD_CONFIG.minLength then [minLengthMsg] else [])
  ++ (if PASSWORD_CONFIG.requireUppercase && !(password.data.any isUpperAZ) then [upperMsg] else [])
  ++ (if PASSWORD_CONFIG.requireLowercase && !(password.data.any isLowerAZ) then [lowerMsg] else [])
  ++ (if PASSWORD_CONFIG.requireNumbers && !(password.data.any isDigit09) then [digitMsg] else [])
  ++ (if PASSWORD_CONFIG.requireSpecialChars && !(password.data.any isSpecialChar) then [specialMsg] else [])

/-- The `isValid` field of the source's validation result. -/
def passwordIsValid (password : String) : Bool :=
  (validatePasswordStrength password).isEmpty

/-- C6: Secret Policy evaluation is total (a Lean function of an
arbitrary string) and returns the complete ordered list of all violated
rules: "abc" yields exactly min-length, uppercase, digit and
special-character, "Abcdef1!" yields zero violations, and in general
each rule's message is in the output iff that rule is violated. -/
theorem c6_password_policy_complete :
    validatePasswordStrength "abc" = [minLengthMsg, upperMsg, digitMsg, specialMsg]
    ∧ validatePasswordStrength "Abcdef1!" = []
    ∧ ∀ p : String,
        (minLengthMsg ∈ validatePasswordStrength p ↔ p.length < 8)
        ∧ (upperMsg ∈ validatePasswordStrength p ↔ p.data.any isUpperAZ = false)
        ∧ (lowerMsg ∈ validatePasswordStrength p ↔ p.data.any isLowerAZ = false)
        ∧ (digitMsg ∈ validatePasswordStrength p ↔ p.data.any isDigit09 = false)
        ∧ (specialMsg ∈ validatePasswordStrength p ↔ p.data.any isSpecialChar = false) := by
  refine ⟨by decide, by decide, ?_⟩
  intro p
  unfold validatePasswordStrength
  simp only [PASSWORD_CONFIG, Bool.true_and, List.mem_append]
  by_cases h1 : p.length < 8 <;>
    by_cases h2 : p.data.any isUpperAZ <;>
      by_cases h3 : p.data.any isLowerAZ <;>
        by_cases h4 : p.data.any isDigit09 <;>
          by_cases h5 : p.data.any isSpecialChar <;>
            simp [h1, h2, h3, h4, h5, minLengthMsg, upperMsg, lowerMsg, digitMsg, specialMsg]

theorem extractToken_bearer (req : Request) (a : String) (ha : req.authorization = some a)
    (hne : a ≠ "") (hsw : jsStartsWith a "Bearer " = true) :
    extractToken req = some (a.drop 7) := by
  simp [extractToken, ha, truthy, hne, hsw]

/-- C9: credential extraction returns the first match in priority order:
the text after the `Bearer ` prefix of the Authorization header (a
header without the prefix is treated as absent), then the
`x-access-token` header, then the `token` query parameter, and none when
all three locations are empty; it is a pure function of the request
metadata. -/
theorem c9_extract_priority (req : Request) :
    (∀ a, req.authorization = some a → a ≠ "" → jsStartsWith a "Bearer " = true →
        extractToken req = some (a.drop 7))
    ∧ ((truthy req.authorization = false
          ∨ jsStartsWith (req.authorization.getD "") "Bearer " = false) →
        ((truthy req.xAccessToken = true → extractToken req = req.xAccessToken)
         ∧ (truthy req.xAccessToken = false →
             ((truthy req.queryToken = true → extractToken req = req.queryToken)
              ∧ (truthy req.queryToken = false → extractToken req = none))))) := by
  constructor
  · intro a ha hne hsw
    exact extractToken_bearer req a ha hne hsw
  · intro h
    have hcond :
        (truthy req.authorization && jsStartsWith (req.authorization.getD "") "Bearer ")
          = false := by
      rcases h with h | h <;> simp [h]
    exact ⟨fun hx => by simp [extractToken, hcond, hx],
           fun hx => ⟨fun hq => by simp [extractToken, hcond, hx, hq],
                      fun hq => by simp [extractToken, hcond, hx, hq]⟩⟩

def reqBearer : Request :=
  { authorization := some "Bearer abc", xAccessToken := none, queryToken := none }

theorem c9_extract_priority_witness : extractToken reqBearer = some "abc" :=
  (c9_extract_priority reqBearer).1 "Bearer abc" rfl (by decide) (by decide)

/-- C10: a request whose Authorization header is exactly `Bearer `
extracts the empty string without falling through to the other two
locations, whatever they hold, and the mandatory gate then fails with
the missing-credential error (not the malformed-token error). -/
theorem c10_empty_bearer_token (cfg : JwtConfig) (dec : String → Option Token) (now : Nat)
    (x q : Option String) :
    extractToken { authorization := some "Bearer ", xAccessToken := x, queryToken := q }
      = some ""
    ∧ authenticateToken cfg dec now
        { authorization := some "Bearer ", xAccessToken := x, queryToken := q }
      = .error (.AuthenticationError "Access token is required") := by
  have he : extractToken { authorization := some "Bearer ", xAccessToken := x, queryToken := q }
      = some "" := by
    have h := extractToken_bearer
      { authorization := some "Bearer ", xAccessToken := x, queryToken := q }
      "Bearer " rfl (by decide) (by decide)
    simpa using h
  exact ⟨he, by simp [authenticateToken, he]⟩

/-- C8: the role check fails with an AuthenticationError when no
identity is present, fails with a RoleDenied AuthorizationError when the
identity's role is not in the allowed list, succeeds otherwise, and no
other outcome is possible. -/
theorem c8_role_check (roles : List String) (user : Option CallerIdentity) :
    (user = none →
      authorizeRoles roles user = .error (.AuthenticationError "User not authenticated"))
    ∧ (∀ u, user = some u →
        (u.role ∉ roles →
          authorizeRoles roles user =
            .error (.AuthorizationError ("Role " ++ u.role ++ " is not authorized")))
        ∧ (u.role ∈ roles → authorizeRoles roles user = .ok ()))
    ∧ (authorizeRoles roles user = .ok ()
       ∨ (∃ m, authorizeRoles roles user = .error (.AuthenticationError m))
       ∨ (∃ m, authorizeRoles roles user = .error (.AuthorizationError m))) := by
  refine ⟨fun h => by simp [authorizeRoles, h],
          fun u hu => ⟨fun hc => by simp [authorizeRoles, hu, hc],
                       fun hc => by simp [authorizeRoles, hu, hc]⟩, ?_⟩
  cases user with
  | none =>
    exact Or.inr (Or.inl ⟨"User not authenticated", by simp [authorizeRoles]⟩)
  | some u =>
    by_cases hc : u.role ∈ roles
    · exact Or.inl (by simp [authorizeRoles, hc])
    · exact Or.inr (Or.inr
        ⟨"Role " ++ u.role ++ " is not authorized", by simp [authorizeRoles, hc]⟩)

theorem c8_role_check_witness :
    authorizeRoles ["admin", "moderator"]
        (some { id := 1, username := "alice", email := "a@b.c", role := "user" })
      = .error (.AuthorizationError "Role user is not authorized") :=
  ((c8_role_check ["admin", "moderator"]
      (some { id := 1, username := "alice", email := "a@b.c", role := "user" })).2.1
    { id := 1, username := "alice", email := "a@b.c", role := "user" } rfl).1 (by decide)

/-- C2: the ownership check decides in order: no identity fails with an
AuthenticationError; a missing resource fails with the
resource-not-found error whatever the caller's role; an `admin` role
succeeds regardless of the owner field; otherwise it succeeds iff the
resource's owner field equals the caller's id and fails with the
access-denied AuthorizationError otherwise. -/
theorem c2_ownership_decision (lookup : Nat → Option Resource)
    (user : Option CallerIdentity) (rid : Nat) :
    (user = none →
      authorizeResourceOwnership lookup user rid =
        .error (.AuthenticationError "User not authenticated"))
    ∧ (∀ u, user = some u →
        (lookup rid = none →
          authorizeResourceOwnership lookup user rid =
            .error (.PlainError "Resource not found"))
        ∧ (∀ r, lookup rid = some r →
            (u.role = "admin" → authorizeResourceOwnership lookup user rid = .ok ())
            ∧ (u.role ≠ "admin" →
                ((r.userId = u.id → authorizeResourceOwnership lookup user rid = .ok ())
                 ∧ (r.userId ≠ u.id →
                     authorizeResourceOwnership lookup user rid =
                       .error (.AuthorizationError "Access denied to this resource")))))) := by
  refine ⟨fun h => by simp [authorizeResourceOwnership, h],
          fun u hu =>
            ⟨fun hl => by simp [authorizeResourceOwnership, hu, hl],
             fun r hr =>
               ⟨fun hadm => by simp [authorizeResourceOwnership, hu, hr, hadm],
                fun hadm =>
                  ⟨fun hown => by simp [authorizeResourceOwnership, hu, hr, hadm, hown],
                   fun hown => by simp [authorizeResourceOwnership, hu, hr, hadm, hown]⟩⟩⟩⟩

def adminCaller : CallerIdentity :=
  { id := 1, username := "root", email := "root@example.com", role := "admin" }

def lookupOther : Nat → Option Resource := fun _ => some { userId := 42 }

theorem c2_ownership_decision_witness :
    authorizeResourceOwnership lookupOther (some adminCaller) 7 = .ok () :=
  (((c2_ownership_decision lookupOther (some adminCaller) 7).2 adminCaller rfl).2
    { userId := 42 } rfl).1 rfl

def lookupMissing : Nat → Option Resource := fun _ => none

/-- C7: refuted by the code: for a missing resource the ownership
middleware raises the untyped built-in `Error("Resource not found")`,
which carries no `statusCode`, so the boundary renderer defaults it to
HTTP 500 — not the typed 404 `NotFoundError` the repository defines for
this purpose (while the authentication and authorization classes do map
to 401 and 403). -/
theorem c7_resource_not_found_renders_500 :
    authorizeResourceOwnership lookupMissing (some adminCaller) 1
      = .error (.PlainError "Resource not found")
    ∧ statusCode (.PlainError "Resource not found") = none
    ∧ globalErrorHandler (.PlainError "Resource not found") = 500
    ∧ statusCode (.NotFoundError "Resource not found") = some 404
    ∧ globalErrorHandler (.AuthenticationError "Access token is required") = 401
    ∧ globalErrorHandler (.AuthorizationError "Access denied to this resource") = 403 :=
  ⟨rfl, rfl, rfl, rfl, rfl, rfl⟩

/-- C1: the mandatory authentication gate follows exactly the pipeline:
a missing (or empty, hence falsy) extracted credential fails with the
missing-credential error; Token Codec verification failures are
propagated unchanged as AuthenticationError subkinds; a verified token
whose type is not `access` fails with the wrong-token-type error;
otherwise the caller identity projected from the claims is attached and
the request proceeds.  An error result short-circuits the request before
any handler logic. -/
theorem c1_auth_gate_pipeline (cfg : JwtConfig) (dec : String → Option Token) (now : Nat)
    (req : Request) :
    ((extractToken req = none ∨ extractToken req = some "") →
      authenticateToken cfg dec now req =
        .error (.AuthenticationError "Access token is required"))
    ∧ (∀ s, extractToken req = some s → s ≠ "" →
        ((∀ e, verifyTokenStr cfg dec now s = .error e →
            authenticateToken cfg dec now req = .error e)
         ∧ (∀ c, verifyTokenStr cfg dec now s = .ok c →
             ((c.type ≠ "access" →
                 authenticateToken cfg dec now req =
                   .error (.AuthenticationError "Invalid token type"))
              ∧ (c.type = "access" →
                 authenticateToken cfg dec now req = .ok (identityOfClaims c)))))) := by
  constructor
  · rintro (h | h) <;> simp [authenticateToken, h]
  · intro s hs hne
    refine ⟨fun e he => by simp [authenticateToken, hs, hne, he],
            fun c hc => ⟨fun hty => by simp [authenticateToken, hs, hne, hc, hty],
                         fun hty => by simp [authenticateToken, hs, hne, hc, hty]⟩⟩

def noDec : String → Option Token := fun _ => none

def emptyReq : Request := { authorization := none, xAccessToken := none, queryToken := none }

theorem c1_auth_gate_pipeline_witness :
    authenticateToken JWT_CONFIG noDec 0 emptyReq
      = .error (.AuthenticationError "Access token is required") := by
  have hx : extractToken emptyReq = none := by decide
  exact (c1_auth_gate_pipeline JWT_CONFIG noDec 0 emptyReq).1 (Or.inl hx)

/-- C5: the optional authentication gate never fails: every error of the
try-block is swallowed (the request proceeds unauthenticated), every
failure of the mandatory gate on the same request leaves it with no
identity, and an identity is attached exactly when the extracted token
verifies and has token type `access`. -/
theorem c5_optional_auth (cfg : JwtConfig) (dec : String → Option Token) (now : Nat)
    (req : Request) :
    (∀ e, optionalAuthBody cfg dec now req = .error e → optionalAuth cfg dec now req = none)
    ∧ (∀ e, authenticateToken cfg dec now req = .error e →
        optionalAuth cfg dec now req = none)
    ∧ (∀ i, optionalAuth cfg dec now req = some i ↔
        ∃ s c, extractToken req = some s ∧ s ≠ "" ∧ verifyTokenStr cfg dec now s = .ok c
          ∧ c.type = "access" ∧ i = identityOfClaims c) := by
  refine ⟨fun e he => by simp [optionalAuth, he], ?_, ?_⟩
  · intro e he
    rcases hx : extractToken req with _ | s
    · simp [optionalAuth, optionalAuthBody, hx]
    · by_cases hs : s = ""
      · simp [optionalAuth, optionalAuthBody, hx, hs]
      · rcases hv : verifyTokenStr cfg dec now s with e' | c
        · simp [optionalAuth, optionalAuthBody, hx, hs, hv]
        · by_cases hty : c.type = "access"
          · simp [authenticateToken, hx, hs, hv, hty] at he
          · simp [optionalAuth, optionalAuthBody, hx, hs, hv, hty]
  · intro i
    constructor
    · intro h
      rcases hx : extractToken req with _ | s
      · simp [optionalAuth, optionalAuthBody, hx] at h
      · by_cases hs : s = ""
        · simp [optionalAuth, optionalAuthBody, hx, hs] at h
        · rcases hv : verifyTokenStr cfg dec now s with e' | c
          · simp [optionalAuth, optionalAuthBody, hx, hs, hv] at h
          · by_cases hty : c.type = "access"
            · refine ⟨s, c, rfl, hs, hv, hty, ?_⟩
              simp [optionalAuth, optionalAuthBody, hx, hs, hv, hty] at h
              exact h.symm
            · simp [optionalAuth, optionalAuthBody, hx, hs, hv, hty] at h
    · rintro ⟨s, c, hx, hs, hv, hty, hi⟩
      simp [optionalAuth, optionalAuthBody, hx, hs, hv, hty, hi]

theorem c5_optional_auth_witness :
    optionalAuth JWT_CONFIG noDec 0 emptyReq = none := by
  have hx : extractToken emptyReq = none := by decide
  exact (c5_optional_auth JWT_CONFIG noDec 0 emptyReq).2.1
    (.AuthenticationError "Access token is required") (by simp [authenticateToken, hx])

/-- C3: an access token issued for an identity verifies to claims whose
subject id, username, email and role are the identity's and whose type
is `access`, at every time up to the expiry instant; past it,
verification fails with the expired-token error.  The expiry instant is
issuance time plus the access TTL for access tokens and plus the
independent refresh TTL for refresh tokens, with defaults 24h and 7d. -/
theorem c3_token_lifecycle (cfg : JwtConfig) (u : User) (tIssue tNow : Nat) :
    (generateToken cfg tIssue u "access").claims.exp = tIssue + cfg.expiresInSecs
    ∧ (generateToken cfg tIssue u "refresh").claims.exp = tIssue + cfg.refreshExpiresInSecs
    ∧ JWT_CONFIG.expiresInSecs = 24 * 60 * 60
    ∧ JWT_CONFIG.refreshExpiresInSecs = 7 * 24 * 60 * 60
    ∧ (tNow ≤ tIssue + cfg.expiresInSecs →
        verifyToken cfg tNow (generateToken cfg tIssue u "access") =
          .ok { userId := u.id, username := u.username, email := u.email, role := u.role,
                type := "access", iat := tIssue, iss := cfg.issuer, aud := cfg.audience,
                exp := tIssue + cfg.expiresInSecs })
    ∧ (tIssue + cfg.expiresInSecs < tNow →
        verifyToken cfg tNow (generateToken cfg tIssue u "access") =
          .error (.AuthenticationError "Token has expired")) := by
  refine ⟨by simp [generateToken], by simp [generateToken], rfl, rfl, ?_, ?_⟩
  · intro h
    simp [verifyToken, jwtVerify, generateToken, Nat.not_lt.mpr h]
  · intro h
    simp [verifyToken, jwtVerify, generateToken, h]

def aliceUser : User :=
  { id := 1, username := "alice", email := "alice@example.com", role := "user" }

theorem c3_token_lifecycle_witness :
    verifyToken JWT_CONFIG 86400 (generateToken JWT_CONFIG 0 aliceUser "access") =
      .ok { userId := 1, username := "alice", email := "alice@example.com", role := "user",
            type := "access", iat := 0, iss := "task-manager-api", aud := "task-manager-users",
            exp := 86400 } := by
  have h := (c3_token_lifecycle JWT_CONFIG aliceUser 0 86400).2.2.2.2.1 (by decide)
  simpa [JWT_CONFIG, aliceUser] using h

/-- C4: verification checks issuer and audience equality against the
codec configuration in addition to signature validity and expiry: a
token signed with the correct key but carrying a different issuer or
audience is rejected with the malformed-token error, never accepted. -/
theorem c4_issuer_audience_mismatch (cfg : JwtConfig) (t : Token) (now : Nat)
    (hsig : t.signedWith = cfg.secret)
    (hmis : t.claims.iss ≠ cfg.issuer ∨ t.claims.aud ≠ cfg.audience) :
    verifyToken cfg now t = .error (.AuthenticationError "Invalid token") := by
  rcases hmis with h | h
  · simp [verifyToken, jwtVerify, hsig, h]
  · by_cases hIss : t.claims.iss = cfg.issuer
    · simp [verifyToken, jwtVerify, hsig, hIss, h]
    · simp [verifyToken, jwtVerify, hsig, hIss]

def wrongIssuerToken : Token :=
  { claims := { userId := 1, username := "alice", email := "alice@example.com", role := "user",
                type := "access", iat := 0, iss := "evil-issuer", aud := "task-manager-users",
                exp := 86400 }
  , signedWith := "your-super-secret-jwt-key-change-in-production" }

theorem c4_issuer_audience_mismatch_witness :
    verifyToken JWT_CONFIG 0 wrongIssuerToken = .error (.AuthenticationError "Invalid token") :=
  c4_issuer_audience_mismatch JWT_CONFIG wrongIssuerToken 0 (by decide) (Or.inl (by decide))
